import Mathlib

/-!
Verification of the rmq2 AMQP 0-9-1 channel protocol engine against its
specification. The repository's headers (rmq2/channel.h, rmq2/envelope.h,
amqp_table.h) declare the interface; the channel state machine, the RPC
correlator and the table lookup are modelled here from the specification,
while the Envelope accessors are embedded directly from their inline
definitions in rmq2/envelope.h.
-/

namespace Rmq2

/-- Flag bit constants, from the `Channel::Flags` enum in rmq2/channel.h. -/
def kPassive : Nat := 1

def kDurable : Nat := 2

def kAutoDelete : Nat := 4

def kInternal : Nat := 8

def kExclusive : Nat := 16

def kIfUnused : Nat := 32

def kIfEmpty : Nat := 64

def kMandatory : Nat := 128

def kImmediate : Nat := 256

def kNoLocal : Nat := 512

def kNoAck : Nat := 1024

def kMultiple : Nat := 2048

def kRequeue : Nat := 4096

/-- Error kinds, from spec section 7 (rmq2/status.h is not in the sources). -/
inductive ErrorKind where
  | InvalidArgument
  | InvalidState
  | NotFound
  | ChannelClosed
  | ConnectionClosed
  | TransportLost
  | ChannelBusy
deriving DecidableEq, Repr

/-- Channel lifecycle states, from spec section 3: opened once, then possibly closed. -/
inductive Lifecycle where
  | Open
  | Closed
deriving DecidableEq, Repr

/-- Transaction state, from spec section 3: enum {None, Active}. -/
inductive TxState where
  | None
  | Active
deriving DecidableEq, Repr

/-- The operations of the Channel interface (rmq2/channel.h), with the
arguments that affect channel-core behaviour. Table arguments are opaque
pass-through data for every operation and are omitted. -/
inductive Op where
  | DeclareExchange (name ty : String) (flags : Nat)
  | DeleteExchange (name : String) (flags : Nat)
  | BindExchange (destination source routing_key : String)
  | UnbindExchange (destination source routing_key : String)
  | DeclareQueue (name : String) (flags : Nat)
  | DeleteQueue (name : String) (flags : Nat)
  | BindQueue (queue exchange routing_key : String)
  | UnbindQueue (queue exchange routing_key : String)
  | PurgeQueue (queue : String)
  | Publish (exchange routing_key : String) (flags : Nat)
  | AddPublishConfirm
  | Consume (queue tag : String) (flags : Nat)
  | CancelConsumer (tag : String)
  | Get (queue : String) (flags : Nat)
  | Ack (delivery_tag : Nat) (flags : Nat)
  | Nack (delivery_tag : Nat) (flags : Nat)
  | Recover (flags : Nat)
  | Qos (size count : Nat)
  | TransactionBegin
  | TransactionCommit
  | TransactionRollback
deriving DecidableEq, Repr

/-- The flags argument of an operation, when it has one. -/
def Op.opFlags : Op → Option Nat
  | .DeclareExchange _ _ f => some f
  | .DeleteExchange _ f => some f
  | .DeclareQueue _ f => some f
  | .DeleteQueue _ f => some f
  | .Publish _ _ f => some f
  | .Consume _ _ f => some f
  | .Get _ f => some f
  | .Ack _ f => some f
  | .Nack _ f => some f
  | .Recover f => some f
  | _ => none

/-- The acceptable flag bits of each operation, from the doc comments in
rmq2/channel.h (e.g. DeclareExchange: kPassive, kDurable, kAutoDelete,
kInternal; Publish: kMandatory, kImmediate; Nack: kMultiple, kRequeue). -/
def validMask : Op → Nat
  | .DeclareExchange _ _ _ => kPassive + kDurable + kAutoDelete + kInternal
  | .DeleteExchange _ _ => kIfUnused
  | .DeclareQueue _ _ => kPassive + kDurable + kExclusive + kAutoDelete
  | .DeleteQueue _ _ => kIfUnused + kIfEmpty
  | .Publish _ _ _ => kMandatory + kImmediate
  | .Consume _ _ _ => kNoLocal + kNoAck + kExclusive
  | .Get _ _ => kNoAck
  | .Ack _ _ => kMultiple
  | .Nack _ _ => kMultiple + kRequeue
  | .Recover _ => kRequeue
  | _ => 0

/-- A flags bitmask is valid for a mask when every set bit lies inside the mask. -/
def flagsValid (f mask : Nat) : Bool := f &&& mask == f

/-- Whether an operation passes its local flag validation. Operations that
take no flags argument are vacuously valid. -/
def flagsOk (o : Op) : Bool :=
  match o.opFlags with
  | some f => flagsValid f (validMask o)
  | none => true

/-- The synchronous RPCs of spec section 4, routed through the correlator;
Publish, Ack, Nack and AddPublishConfirm are not synchronous RPCs. -/
def Op.isSyncRpc : Op → Bool
  | .Publish _ _ _ => false
  | .Ack _ _ => false
  | .Nack _ _ => false
  | .AddPublishConfirm => false
  | _ => true

/-- Frames handed to the transport, at the granularity the channel core
observes: one request frame per synchronous RPC, the method plus
content-header plus body triple of a publish, and basic.ack/basic.nack sends. -/
inductive Frame where
  | rpcRequest (o : Op)
  | basicPublish (exchange routing_key : String) (flags : Nat)
  | contentHeader
  | contentBody
  | basicAck (delivery_tag : Nat) (multiple : Bool)
  | basicNack (delivery_tag : Nat) (multiple requeue : Bool)
deriving DecidableEq, Repr

/-- What a single step yields to its invoker: an immediate local success, a
successful publish carrying its confirm-mode sequence number, a synchronous
RPC handed to the transport with the caller now suspended, a local error, or
a broker/transport event with no invoking caller. -/
inductive Outcome where
  | Ok
  | OkSeq (n : Nat)
  | Started
  | Err (e : ErrorKind)
  | Notice
deriving DecidableEq, Repr

/-- Modelled from the spec: the per-channel state of section 3 — lifecycle,
the at-most-one outstanding synchronous RPC slot, publisher-confirm mode flag
and delivery-sequence counter, transaction state, and the trace of frames
handed to the transport (oldest first). The channel state machine itself is
absent from the sources, which hold only interface declarations. -/
structure ChannelState where
  lifecycle : Lifecycle
  pendingRpc : Option Op
  confirmMode : Bool
  confirmSeq : Nat
  txState : TxState
  frames : List Frame
deriving DecidableEq, Repr

/-- A freshly opened channel. -/
def initChannel : ChannelState :=
  { lifecycle := .Open, pendingRpc := none, confirmMode := false,
    confirmSeq := 0, txState := .None, frames := [] }

/-- Events a channel reacts to: a caller invoking an operation, the broker
reply completing the pending RPC, a broker-initiated channel close, loss of
the connection, or an explicit client-side close. -/
inductive Event where
  | call (o : Op)
  | brokerReply
  | brokerChannelClose
  | connectionLost
  | clientClose
deriving DecidableEq, Repr

/-- Whether the transaction-state guard admits the operation: Commit and
Rollback require an active transaction (spec section 4.8). -/
def txGuard : Op → TxState → Bool
  | .TransactionCommit, .None => false
  | .TransactionRollback, .None => false
  | _, _ => true

/-- The transaction-state effect of a successfully sent operation: Begin
enters Active; Commit and Rollback exit it (spec section 3). -/
def txEffect : Op → TxState → TxState
  | .TransactionBegin, _ => .Active
  | .TransactionCommit, _ => .None
  | .TransactionRollback, _ => .None
  | _, t => t

/-- Modelled from the spec: invoking a synchronous RPC (sections 4.1, 4.2,
4.8). The correlator rejects a second call while one is outstanding with
ChannelBusy; flag validation and the transaction-state check fail locally
without any frame being sent; otherwise the request frame is handed to the
transport and the caller suspends on the now-occupied RPC slot. -/
def syncRpcStep (s : ChannelState) (o : Op) : Outcome × ChannelState :=
  if s.pendingRpc.isSome then (.Err .ChannelBusy, s)
  else if flagsOk o then
    if txGuard o s.txState then
      (.Started,
       { s with pendingRpc := some o, txState := txEffect o s.txState,
                frames := s.frames ++ [Frame.rpcRequest o] })
    else (.Err .InvalidState, s)
  else (.Err .InvalidArgument, s)

/-- Modelled from the spec: the channel state machine's reaction to one
event (sections 3-5). A closed channel rejects every operation with
ChannelClosed and no I/O; Publish is fire-and-forget, emitting method,
content-header and body frames and, in confirm mode, incrementing the
delivery-sequence counter in the same atomic step as the send; Ack and Nack
are fire-and-forget sends; AddPublishConfirm irreversibly enables confirm
mode; the remaining operations are synchronous RPCs; broker replies clear
the RPC slot; channel close, connection loss and client close move the
lifecycle to Closed and cancel the pending RPC. -/
def step (s : ChannelState) (e : Event) : Outcome × ChannelState :=
  match e with
  | .brokerReply => (.Notice, { s with pendingRpc := none })
  | .brokerChannelClose => (.Notice, { s with lifecycle := .Closed, pendingRpc := none })
  | .connectionLost => (.Notice, { s with lifecycle := .Closed, pendingRpc := none })
  | .clientClose => (.Notice, { s with lifecycle := .Closed, pendingRpc := none })
  | .call o =>
    if s.lifecycle = .Closed then (.Err .ChannelClosed, s)
    else
      match o with
      | .Publish ex rk f =>
        if flagsValid f (kMandatory + kImmediate) then
          if s.confirmMode then
            (.OkSeq (s.confirmSeq + 1),
             { s with confirmSeq := s.confirmSeq + 1,
                      frames := s.frames ++
                        [Frame.basicPublish ex rk f, Frame.contentHeader, Frame.contentBody] })
          else
            (.Ok,
             { s with frames := s.frames ++
                        [Frame.basicPublish ex rk f, Frame.contentHeader, Frame.contentBody] })
        else (.Err .InvalidArgument, s)
      | .Ack t f =>
        if flagsValid f kMultiple then
          (.Ok, { s with frames := s.frames ++ [Frame.basicAck t (f &&& kMultiple != 0)] })
        else (.Err .InvalidArgument, s)
      | .Nack t f =>
        if flagsValid f (kMultiple + kRequeue) then
          (.Ok, { s with frames := s.frames ++
                    [Frame.basicNack t (f &&& kMultiple != 0) (f &&& kRequeue != 0)] })
        else (.Err .InvalidArgument, s)
      | .AddPublishConfirm => (.Ok, { s with confirmMode := true })
      | _ => syncRpcStep s o

/-- Run a sequence of events, collecting each step's outcome in order. -/
def runTrace (s : ChannelState) : List Event → List Outcome × ChannelState
  | [] => ([], s)
  | e :: es =>
    let r := step s e
    let rest := runTrace r.2 es
    (r.1 :: rest.1, rest.2)

/-- The confirm-mode sequence numbers of the successful publishes among a
list of outcomes, in order. -/
def publishSeqs : List Outcome → List Nat
  | [] => []
  | .OkSeq n :: rest => n :: publishSeqs rest
  | _ :: rest => publishSeqs rest

/-- Whether a frame is the method frame of a publish. -/
def Frame.isPublishMethod : Frame → Bool
  | .basicPublish _ _ _ => true
  | _ => false

/-- The number of publish method frames handed to the transport. -/
def publishFrameCount (fs : List Frame) : Nat := fs.countP Frame.isPublishMethod

/-- Queue information returned by DeclareQueue, from rmq2/channel.h. -/
structure QueueInfo where
  name : String
  message_count : Nat
  consumer_count : Nat
deriving DecidableEq, Repr

/-- Modelled from the spec: the broker-visible topology a declaration reads
or mutates (section 4.2). The broker itself is outside the sources. -/
structure BrokerState where
  queues : List QueueInfo
  exchanges : List String
deriving DecidableEq, Repr

/-- Modelled from the spec: queue declaration against the broker (section
4.2). With kPassive the call is an existence check: success returns the
existing queue's information without mutating broker state, and absence is
surfaced as NotFound, also without mutation. Without kPassive an absent
queue is created. -/
def brokerDeclareQueue (b : BrokerState) (name : String) (flags : Nat) :
    (ErrorKind ⊕ QueueInfo) × BrokerState :=
  match b.queues.find? (fun q => q.name == name) with
  | some q => (Sum.inr q, b)
  | none =>
    if flags &&& kPassive != 0 then (Sum.inl .NotFound, b)
    else
      (Sum.inr ⟨name, 0, 0⟩, { b with queues := b.queues ++ [⟨name, 0, 0⟩] })

/-- Modelled from the spec: exchange declaration against the broker (section
4.2), with the same passive existence-check semantics as queue declaration. -/
def brokerDeclareExchange (b : BrokerState) (name : String) (flags : Nat) :
    (ErrorKind ⊕ Unit) × BrokerState :=
  if b.exchanges.contains name then (Sum.inr (), b)
  else if flags &&& kPassive != 0 then (Sum.inl .NotFound, b)
  else (Sum.inr (), { b with exchanges := b.exchanges ++ [name] })

/-- Modelled from the spec: the broker-side effect of basic.ack and
basic.nack on the channel's outstanding (unacknowledged) delivery tags
(section 4.6). With kMultiple the given tag and every outstanding tag below
it are settled; without it only the given tag is. -/
def ackEffect (outstanding : List Nat) (delivery_tag : Nat) (multiple : Bool) :
    List Nat :=
  if multiple then outstanding.filter (fun t => decide (delivery_tag < t))
  else outstanding.filter (fun t => t != delivery_tag)

/-- AMQP field-table values, from spec section 3: bool, integers, strings,
byte arrays, nested tables, arrays, timestamps, decimals, null. Floating
point variants are omitted (not representable in this embedding). -/
inductive FieldValue where
  | boolean (b : Bool)
  | int (i : Int)
  | utf8 (s : String)
  | bytes (bs : List Nat)
  | table (entries : List (String × FieldValue))
  | array (vs : List FieldValue)
  | timestamp (t : Nat)
  | decimal (scale : Nat) (value : Int)
  | null

/-- One key-value entry of an AMQP field table (amqp_table_entry_t). -/
structure TableEntry where
  key : String
  value : FieldValue

/-- A table is an ordered sequence of entries (spec section 3); duplicate
keys are permitted by the wire format. -/
def Table := List TableEntry

/-- Well-formedness invariant of a table, from spec section 3: keys are
non-empty. -/
def TableWF (t : List TableEntry) : Prop := ∀ e ∈ t, e.key ≠ ""

instance (t : List TableEntry) : Decidable (TableWF t) :=
  List.decidableBAll _ t

/-- Modelled from the spec: lookup of a table entry by key
(amqp_table_get_entry_by_key, declared in amqp_table.h); returns the first
entry whose key matches (spec section 3). -/
def amqp_table_get_entry_by_key (t : List TableEntry) (key : String) :
    Option TableEntry :=
  t.find? (fun e => e.key == key)

/-- Construct a UTF-8 string entry (amqp_table_construct_utf8_entry). -/
def amqp_table_construct_utf8_entry (key value : String) : TableEntry :=
  ⟨key, .utf8 value⟩

/-- Construct a boolean entry (amqp_table_construct_bool_entry). -/
def amqp_table_construct_bool_entry (key : String) (value : Bool) : TableEntry :=
  ⟨key, .boolean value⟩

/-- Modelled from the spec: the Message value type of section 3 (its header
rmq2/message.h is not in the sources): payload plus optional properties,
immutable. -/
structure Message where
  payload : List Nat
  content_type : Option String
  content_encoding : Option String
  headers : List TableEntry
  delivery_mode : Option Nat
  priority : Option Nat
  correlation_id : Option String
  reply_to : Option String
  expiration : Option String
  message_id : Option String
  timestamp : Option Nat
  ty : Option String
  user_id : Option String
  app_id : Option String

/-- The Envelope value type, embedded from rmq2/envelope.h: a message plus
its delivery metadata, held in private fields. -/
structure Envelope where
  message_ : Message
  consumer_tag_ : String
  exchange_ : String
  routing_key_ : String
  delivery_tag_ : Nat
  redelivered_ : Bool

/-- Embedded from rmq2/envelope.h: the const accessor returns the message
field; as a const member function it is modelled as returning the value
together with the (unchanged) object state. -/
def Envelope.Message (e : Envelope) : Message × Envelope := (e.message_, e)

/-- Embedded from rmq2/envelope.h: returns the exchange field. -/
def Envelope.Exchange (e : Envelope) : String × Envelope := (e.exchange_, e)

/-- Embedded from rmq2/envelope.h: returns the routing-key field. -/
def Envelope.RoutingKey (e : Envelope) : String × Envelope := (e.routing_key_, e)

/-- Embedded from rmq2/envelope.h: returns the delivery-tag field. -/
def Envelope.DeliveryTag (e : Envelope) : Nat × Envelope := (e.delivery_tag_, e)

/-- Embedded from rmq2/envelope.h: returns the redelivered field. -/
def Envelope.Redelivered (e : Envelope) : Bool × Envelope := (e.redelivered_, e)

/-- A choice of one of the five public Envelope accessors. -/
inductive Accessor where
  | message
  | exchange
  | routingKey
  | deliveryTag
  | redelivered
deriving DecidableEq, Repr

/-- The value an accessor returns. -/
inductive AccValue where
  | msg (m : Message)
  | str (s : String)
  | nat (n : Nat)
  | flag (b : Bool)

/-- Invoke one accessor on an envelope, yielding its value and the
(possibly updated) envelope object. -/
def runAccessor (e : Envelope) : Accessor → AccValue × Envelope
  | .message => (.msg (e.Message).1, (e.Message).2)
  | .exchange => (.str (e.Exchange).1, (e.Exchange).2)
  | .routingKey => (.str (e.RoutingKey).1, (e.RoutingKey).2)
  | .deliveryTag => (.nat (e.DeliveryTag).1, (e.DeliveryTag).2)
  | .redelivered => (.flag (e.Redelivered).1, (e.Redelivered).2)

/-- Invoke a sequence of accessor calls in order, threading the envelope
object through. -/
def applyAccessors (e : Envelope) : List Accessor → Envelope
  | [] => e
  | a :: rest => applyAccessors (runAccessor e a).2 rest

/-! ### Helper lemmas shared by several claims -/

/-- A step taken from a closed channel leaves the lifecycle closed and hands
no frame to the transport. -/
theorem step_of_closed (s : ChannelState) (e : Event) (h : s.lifecycle = .Closed) :
    (step s e).2.lifecycle = .Closed ∧ (step s e).2.frames = s.frames := by
  cases e <;> simp [step, h]

/-- Every operation invoked on a closed channel fails with ChannelClosed and
leaves the state untouched. -/
theorem step_call_closed (s : ChannelState) (o : Op) (h : s.lifecycle = .Closed) :
    step s (Event.call o) = (.Err .ChannelClosed, s) := by
  simp [step, h]

/-- Confirm mode is a one-way switch: no step ever clears it. -/
theorem step_confirm_mode_mono (s : ChannelState) (e : Event)
    (h : s.confirmMode = true) : (step s e).2.confirmMode = true := by
  cases e with
  | call o =>
    cases o <;> simp only [step, syncRpcStep] <;> split_ifs <;> simp [h]
  | brokerReply => simp [step, h]
  | brokerChannelClose => simp [step, h]
  | connectionLost => simp [step, h]
  | clientClose => simp [step, h]

/-- With confirm mode on, each step either is a successful publish — whose
outcome carries the freshly incremented delivery-sequence number and which
appends exactly one publish method frame — or leaves both the counter and
the number of publish frames unchanged. -/
theorem step_confirm_cases (s : ChannelState) (e : Event) (h : s.confirmMode = true) :
    ((step s e).1 = Outcome.OkSeq (s.confirmSeq + 1)
        ∧ (step s e).2.confirmSeq = s.confirmSeq + 1
        ∧ publishFrameCount (step s e).2.frames = publishFrameCount s.frames + 1)
    ∨ ((∀ n, (step s e).1 ≠ Outcome.OkSeq n)
        ∧ (step s e).2.confirmSeq = s.confirmSeq
        ∧ publishFrameCount (step s e).2.frames = publishFrameCount s.frames) := by
  cases e with
  | call o =>
    cases o <;> simp only [step, syncRpcStep] <;> split_ifs <;>
      simp_all [publishFrameCount, Frame.isPublishMethod, List.countP_append,
        List.countP_cons]
  | brokerReply => right; simp [step]
  | brokerChannelClose => right; simp [step]
  | connectionLost => right; simp [step]
  | clientClose => right; simp [step]

/-- An outcome that is not a successful confirm-mode publish contributes no
sequence number. -/
theorem publishSeqs_cons_of_ne (o : Outcome) (l : List Outcome)
    (h : ∀ n, o ≠ Outcome.OkSeq n) : publishSeqs (o :: l) = publishSeqs l := by
  cases o <;> simp [publishSeqs]
  exact absurd rfl (h _)

/-- With confirm mode on at the start of a trace, the successful publishes
receive the consecutive sequence numbers starting right above the initial
counter, the counter never decreases, and the counter's growth equals the
number of publish method frames handed to the transport. -/
theorem trace_confirm (evs : List Event) (s : ChannelState) (h : s.confirmMode = true) :
    publishSeqs (runTrace s evs).1
      = List.range' (s.confirmSeq + 1) ((runTrace s evs).2.confirmSeq - s.confirmSeq)
    ∧ s.confirmSeq ≤ (runTrace s evs).2.confirmSeq
    ∧ publishFrameCount (runTrace s evs).2.frames
      = publishFrameCount s.frames + ((runTrace s evs).2.confirmSeq - s.confirmSeq) := by
  induction evs generalizing s with
  | nil => simp [runTrace, publishSeqs]
  | cons e es ih =>
    have hmode := step_confirm_mode_mono s e h
    obtain ⟨ih1, ih2, ih3⟩ := ih (step s e).2 hmode
    simp only [runTrace]
    rcases step_confirm_cases s e h with ⟨ho, hseq, hfc⟩ | ⟨ho, hseq, hfc⟩
    · rw [hseq] at ih1 ih2 ih3
      have hk : (runTrace (step s e).2 es).2.confirmSeq - s.confirmSeq
          = ((runTrace (step s e).2 es).2.confirmSeq - (s.confirmSeq + 1)) + 1 := by
        omega
      refine ⟨?_, by omega, by omega⟩
      rw [ho, publishSeqs, ih1, hk, List.range'_succ]
    · rw [hseq] at ih1 ih2 ih3
      exact ⟨by rw [publishSeqs_cons_of_ne _ _ ho, ih1], ih2, by omega⟩

/-- While confirm mode has never been enabled, the delivery-sequence counter
stays at zero. -/
theorem step_confirm_off (s : ChannelState) (e : Event)
    (h : s.confirmMode = false → s.confirmSeq = 0) :
    (step s e).2.confirmMode = false → (step s e).2.confirmSeq = 0 := by
  cases e with
  | call o =>
    cases o <;> simp only [step, syncRpcStep] <;> split_ifs <;> simp_all
  | brokerReply => simpa [step] using h
  | brokerChannelClose => simpa [step] using h
  | connectionLost => simpa [step] using h
  | clientClose => simpa [step] using h

/-- Trace form of step_confirm_off. -/
theorem trace_confirm_off (evs : List Event) (s : ChannelState)
    (h : s.confirmMode = false → s.confirmSeq = 0) :
    (runTrace s evs).2.confirmMode = false → (runTrace s evs).2.confirmSeq = 0 := by
  induction evs generalizing s with
  | nil => simpa [runTrace] using h
  | cons e es ih => simp only [runTrace]; exact ih _ (step_confirm_off s e h)

/-- The channel state reached by enabling confirm mode after an initial
trace of events on a fresh channel. -/
def afterEnable (evs1 : List Event) : ChannelState :=
  (step (runTrace initChannel evs1).2 (Event.call Op.AddPublishConfirm)).2

/-! ### The claims -/

/-- C2: at most one synchronous RPC is outstanding per channel — a
synchronous RPC invoked while another is pending on an open channel fails
with ErrorKind::ChannelBusy and leaves the channel state, the pending RPC
included, unchanged. -/
theorem rpc_busy_rejected (s : ChannelState) (o r : Op)
    (hopen : s.lifecycle = .Open) (hp : s.pendingRpc = some r)
    (hs : Op.isSyncRpc o = true) :
    step s (Event.call o) = (.Err .ChannelBusy, s) := by
  cases o <;> simp_all [step, Op.isSyncRpc, syncRpcStep]

/-- Witness for C2: a DeclareQueue call issued while a TransactionBegin RPC
is pending fails with ChannelBusy and changes nothing. -/
theorem rpc_busy_rejected_witness :
    ({ initChannel with pendingRpc := some Op.TransactionBegin } : ChannelState).lifecycle
        = .Open
    ∧ ({ initChannel with pendingRpc := some Op.TransactionBegin } : ChannelState).pendingRpc
        = some Op.TransactionBegin
    ∧ Op.isSyncRpc (Op.DeclareQueue "q" 0) = true
    ∧ step { initChannel with pendingRpc := some Op.TransactionBegin }
        (Event.call (Op.DeclareQueue "q" 0))
      = (.Err .ChannelBusy, { initChannel with pendingRpc := some Op.TransactionBegin }) :=
  ⟨rfl, rfl, rfl,
   rpc_busy_rejected { initChannel with pendingRpc := some Op.TransactionBegin }
     (Op.DeclareQueue "q" 0) Op.TransactionBegin rfl rfl rfl⟩

/-- C3: closedness is a trap state — every operation on a closed channel
returns the terminal ChannelClosed error with the state untouched, no event
ever brings the lifecycle back to open, and no frame is ever handed to the
transport again. -/
theorem closed_channel_is_terminal (s : ChannelState) (h : s.lifecycle = .Closed) :
    (∀ o : Op, step s (Event.call o) = (.Err .ChannelClosed, s))
    ∧ (∀ evs : List Event, (runTrace s evs).2.lifecycle = .Closed
        ∧ (runTrace s evs).2.frames = s.frames) := by
  have aux : ∀ (evs : List Event) (s' : ChannelState), s'.lifecycle = .Closed →
      (runTrace s' evs).2.lifecycle = .Closed ∧ (runTrace s' evs).2.frames = s'.frames := by
    intro evs
    induction evs with
    | nil => exact fun s' hs => ⟨hs, rfl⟩
    | cons e es ih =>
      intro s' hs
      obtain ⟨h1, h2⟩ := step_of_closed s' e hs
      obtain ⟨h3, h4⟩ := ih (step s' e).2 h1
      exact ⟨h3, h4.trans h2⟩
  exact ⟨fun o => step_call_closed s o h, fun evs => aux evs s h⟩

/-- Witness for C3: a closed channel rejects a Publish and stays closed and
silent over a further trace. -/
theorem closed_channel_is_terminal_witness :
    ({ initChannel with lifecycle := .Closed } : ChannelState).lifecycle = .Closed
    ∧ ((∀ o : Op, step { initChannel with lifecycle := .Closed } (Event.call o)
          = (.Err .ChannelClosed, { initChannel with lifecycle := .Closed }))
       ∧ (∀ evs : List Event,
            (runTrace { initChannel with lifecycle := .Closed } evs).2.lifecycle = .Closed
            ∧ (runTrace { initChannel with lifecycle := .Closed } evs).2.frames
              = ({ initChannel with lifecycle := .Closed } : ChannelState).frames)) :=
  ⟨rfl, closed_channel_is_terminal { initChannel with lifecycle := .Closed } rfl⟩

/-- C4: Publish is fire-and-forget — on an open channel with only
kMandatory/kImmediate bits set it hands exactly the method, content-header
and body frames to the transport, returns an immediate success rather than
suspending on a reply, and leaves the outstanding-RPC slot untouched, so no
broker reply is ever correlated to the call. -/
theorem publish_fire_and_forget (s : ChannelState) (ex rk : String) (f : Nat)
    (hopen : s.lifecycle = .Open)
    (hf : flagsValid f (kMandatory + kImmediate) = true) :
    (step s (Event.call (Op.Publish ex rk f))).2.frames
      = s.frames ++ [Frame.basicPublish ex rk f, Frame.contentHeader, Frame.contentBody]
    ∧ (step s (Event.call (Op.Publish ex rk f))).2.pendingRpc = s.pendingRpc
    ∧ ((step s (Event.call (Op.Publish ex rk f))).1 = .Ok
        ∨ (step s (Event.call (Op.Publish ex rk f))).1 = .OkSeq (s.confirmSeq + 1)) := by
  by_cases hc : s.confirmMode = true <;> simp_all [step]

/-- Witness for C4: publishing with both kMandatory and kImmediate set on a
fresh channel. -/
theorem publish_fire_and_forget_witness :
    initChannel.lifecycle = .Open
    ∧ flagsValid (kMandatory + kImmediate) (kMandatory + kImmediate) = true
    ∧ ((step initChannel (Event.call (Op.Publish "amq.direct" "k"
          (kMandatory + kImmediate)))).2.frames
        = initChannel.frames ++ [Frame.basicPublish "amq.direct" "k"
            (kMandatory + kImmediate), Frame.contentHeader, Frame.contentBody]
       ∧ (step initChannel (Event.call (Op.Publish "amq.direct" "k"
            (kMandatory + kImmediate)))).2.pendingRpc = initChannel.pendingRpc
       ∧ ((step initChannel (Event.call (Op.Publish "amq.direct" "k"
            (kMandatory + kImmediate)))).1 = .Ok
          ∨ (step initChannel (Event.call (Op.Publish "amq.direct" "k"
              (kMandatory + kImmediate)))).1 = .OkSeq (initChannel.confirmSeq + 1))) :=
  ⟨rfl, by decide,
   publish_fire_and_forget initChannel "amq.direct" "k" (kMandatory + kImmediate)
     rfl (by decide)⟩

/-- C5: a flags value with a bit outside the operation's documented
acceptable set is rejected locally with ErrorKind::InvalidArgument, before
any encoding, with the state unchanged and no frame handed to the
transport. -/
theorem invalid_flags_rejected_locally (s : ChannelState) (o : Op) (f : Nat)
    (hopen : s.lifecycle = .Open) (hnb : s.pendingRpc = none)
    (hf : Op.opFlags o = some f) (hbad : flagsValid f (validMask o) = false) :
    step s (Event.call o) = (.Err .InvalidArgument, s) := by
  cases o <;> simp_all [step, syncRpcStep, Op.opFlags, validMask, flagsOk]

/-- Witness for C5: DeclareExchange with kIfUnused — a bit only acceptable
for delete operations — fails locally with InvalidArgument. -/
theorem invalid_flags_rejected_locally_witness :
    initChannel.lifecycle = .Open
    ∧ initChannel.pendingRpc = none
    ∧ Op.opFlags (Op.DeclareExchange "e" "direct" kIfUnused) = some kIfUnused
    ∧ flagsValid kIfUnused (validMask (Op.DeclareExchange "e" "direct" kIfUnused)) = false
    ∧ step initChannel (Event.call (Op.DeclareExchange "e" "direct" kIfUnused))
        = (.Err .InvalidArgument, initChannel) :=
  ⟨rfl, rfl, rfl, by decide,
   invalid_flags_rejected_locally initChannel (Op.DeclareExchange "e" "direct" kIfUnused)
     kIfUnused rfl rfl rfl (by decide)⟩

/-- C6: a passive declaration (kPassive set) never mutates broker state —
success merely confirms that the queue or exchange exists, and declaring a
non-existent entity passively fails with ErrorKind::NotFound, again without
mutation. -/
theorem passive_declare_checks_existence (b : BrokerState) (name : String) (f : Nat)
    (hp : f &&& kPassive ≠ 0) :
    ((brokerDeclareQueue b name f).2 = b
      ∧ (∀ q, b.queues.find? (fun q' => q'.name == name) = some q →
            brokerDeclareQueue b name f = (Sum.inr q, b))
      ∧ (b.queues.find? (fun q' => q'.name == name) = none →
            brokerDeclareQueue b name f = (Sum.inl .NotFound, b)))
    ∧ ((brokerDeclareExchange b name f).2 = b
      ∧ (b.exchanges.contains name = true →
            brokerDeclareExchange b name f = (Sum.inr (), b))
      ∧ (b.exchanges.contains name = false →
            brokerDeclareExchange b name f = (Sum.inl .NotFound, b))) := by
  refine ⟨⟨?_, ?_, ?_⟩, ?_, ?_, ?_⟩
  · cases hfind : b.queues.find? (fun q' => q'.name == name) <;>
      simp [brokerDeclareQueue, hfind, hp]
  · intro q hq; simp [brokerDeclareQueue, hq]
  · intro hn; simp [brokerDeclareQueue, hn, hp]
  · by_cases hc : name ∈ b.exchanges <;> simp [brokerDeclareExchange, hc, hp]
  · intro hc
    have hm : name ∈ b.exchanges := by simpa using hc
    simp [brokerDeclareExchange, hm]
  · intro hc
    have hm : name ∉ b.exchanges := by simpa using hc
    simp [brokerDeclareExchange, hm, hp]

/-- Witness for C6: a passive declaration of the absent queue "q0" against a
broker holding only "q1" returns NotFound and leaves the broker unchanged. -/
theorem passive_declare_checks_existence_witness :
    kPassive &&& kPassive ≠ 0
    ∧ (((brokerDeclareQueue ⟨[⟨"q1", 3, 1⟩], ["ex1"]⟩ "q0" kPassive).2
          = (⟨[⟨"q1", 3, 1⟩], ["ex1"]⟩ : BrokerState)
        ∧ (∀ q, (⟨[⟨"q1", 3, 1⟩], ["ex1"]⟩ : BrokerState).queues.find?
              (fun q' => q'.name == "q0") = some q →
            brokerDeclareQueue ⟨[⟨"q1", 3, 1⟩], ["ex1"]⟩ "q0" kPassive
              = (Sum.inr q, ⟨[⟨"q1", 3, 1⟩], ["ex1"]⟩))
        ∧ ((⟨[⟨"q1", 3, 1⟩], ["ex1"]⟩ : BrokerState).queues.find?
              (fun q' => q'.name == "q0") = none →
            brokerDeclareQueue ⟨[⟨"q1", 3, 1⟩], ["ex1"]⟩ "q0" kPassive
              = (Sum.inl .NotFound, ⟨[⟨"q1", 3, 1⟩], ["ex1"]⟩)))
       ∧ ((brokerDeclareExchange ⟨[⟨"q1", 3, 1⟩], ["ex1"]⟩ "q0" kPassive).2
            = (⟨[⟨"q1", 3, 1⟩], ["ex1"]⟩ : BrokerState)
          ∧ ((⟨[⟨"q1", 3, 1⟩], ["ex1"]⟩ : BrokerState).exchanges.contains "q0" = true →
              brokerDeclareExchange ⟨[⟨"q1", 3, 1⟩], ["ex1"]⟩ "q0" kPassive
                = (Sum.inr (), ⟨[⟨"q1", 3, 1⟩], ["ex1"]⟩))
          ∧ ((⟨[⟨"q1", 3, 1⟩], ["ex1"]⟩ : BrokerState).exchanges.contains "q0" = false →
              brokerDeclareExchange ⟨[⟨"q1", 3, 1⟩], ["ex1"]⟩ "q0" kPassive
                = (Sum.inl .NotFound, ⟨[⟨"q1", 3, 1⟩], ["ex1"]⟩)))) :=
  ⟨by decide, passive_declare_checks_existence ⟨[⟨"q1", 3, 1⟩], ["ex1"]⟩ "q0" kPassive
    (by decide)⟩

/-- C7: Ack and Nack with kMultiple settle every outstanding delivery tag up
to and including the given one, not just the tag itself, and both are
fire-and-forget sends: they return immediately with only a basic.ack or
basic.nack frame handed to the transport and no RPC left pending. -/
theorem ack_nack_multiple_covers_lower_tags (s : ChannelState) (outstanding : List Nat)
    (t fa fn : Nat) (hopen : s.lifecycle = .Open)
    (ha : flagsValid fa kMultiple = true) (hma : fa &&& kMultiple ≠ 0)
    (hn : flagsValid fn (kMultiple + kRequeue) = true) (hmn : fn &&& kMultiple ≠ 0) :
    (∀ x, x ∈ ackEffect outstanding t true ↔ x ∈ outstanding ∧ t < x)
    ∧ step s (Event.call (Op.Ack t fa)) =
        (.Ok, { s with frames := s.frames ++ [Frame.basicAck t true] })
    ∧ step s (Event.call (Op.Nack t fn)) =
        (.Ok, { s with frames := s.frames ++
                  [Frame.basicNack t true (fn &&& kRequeue != 0)] }) := by
  refine ⟨fun x => ?_, ?_, ?_⟩
  · simp [ackEffect, List.mem_filter]
  · simp [step, hopen, ha, bne_iff_ne, hma]
  · simp [step, hopen, hn, bne_iff_ne, hmn]

/-- Witness for C7: acking tag 3 of outstanding tags 1..3 with kMultiple
clears all three. -/
theorem ack_nack_multiple_covers_lower_tags_witness :
    initChannel.lifecycle = .Open
    ∧ flagsValid kMultiple kMultiple = true
    ∧ kMultiple &&& kMultiple ≠ 0
    ∧ flagsValid kMultiple (kMultiple + kRequeue) = true
    ∧ ((∀ x, x ∈ ackEffect [1, 2, 3] 3 true ↔ x ∈ [1, 2, 3] ∧ 3 < x)
       ∧ step initChannel (Event.call (Op.Ack 3 kMultiple)) =
           (.Ok, { initChannel with
                     frames := initChannel.frames ++ [Frame.basicAck 3 true] })
       ∧ step initChannel (Event.call (Op.Nack 3 kMultiple)) =
           (.Ok, { initChannel with
                     frames := initChannel.frames ++
                       [Frame.basicNack 3 true (kMultiple &&& kRequeue != 0)] })) :=
  ⟨rfl, by decide, by decide, by decide,
   ack_nack_multiple_covers_lower_tags initChannel [1, 2, 3] 3 kMultiple kMultiple
     rfl (by decide) (by decide) (by decide) (by decide)⟩

/-- C8: TransactionCommit and TransactionRollback on a channel whose
transaction state is None fail locally with ErrorKind::InvalidState, with
the state unchanged and no frame sent; and the only event that moves the
transaction state to Active is a TransactionBegin call. -/
theorem tx_commit_rollback_need_active (s : ChannelState)
    (hopen : s.lifecycle = .Open) (hnb : s.pendingRpc = none)
    (htx : s.txState = .None) :
    step s (Event.call Op.TransactionCommit) = (.Err .InvalidState, s)
    ∧ step s (Event.call Op.TransactionRollback) = (.Err .InvalidState, s)
    ∧ ∀ e : Event, (step s e).2.txState = .Active → e = Event.call Op.TransactionBegin := by
  refine ⟨?_, ?_, ?_⟩
  · simp [step, syncRpcStep, hopen, hnb, flagsOk, Op.opFlags, txGuard, htx]
  · simp [step, syncRpcStep, hopen, hnb, flagsOk, Op.opFlags, txGuard, htx]
  · intro e he
    cases e with
    | call o =>
      cases o <;> simp only [step, syncRpcStep] at he <;> split_ifs at he <;>
        simp_all [txEffect, txGuard]
    | brokerReply => simp [step, htx] at he
    | brokerChannelClose => simp [step, htx] at he
    | connectionLost => simp [step, htx] at he
    | clientClose => simp [step, htx] at he

/-- Witness for C8: Commit and Rollback on a fresh channel fail with
InvalidState, and only TransactionBegin activates a transaction. -/
theorem tx_commit_rollback_need_active_witness :
    initChannel.lifecycle = .Open
    ∧ initChannel.pendingRpc = none
    ∧ initChannel.txState = .None
    ∧ (step initChannel (Event.call Op.TransactionCommit) = (.Err .InvalidState, initChannel)
       ∧ step initChannel (Event.call Op.TransactionRollback)
           = (.Err .InvalidState, initChannel)
       ∧ ∀ e : Event, (step initChannel e).2.txState = .Active →
           e = Event.call Op.TransactionBegin) :=
  ⟨rfl, rfl, rfl, tx_commit_rollback_need_active initChannel rfl rfl rfl⟩

/-- C1: once confirm mode is enabled via AddPublishConfirm on a reachable
open channel, the Nth successful Publish thereafter (1-indexed, regardless
of interleaved non-publish operations and broker events) is associated with
delivery-sequence number N; and the counter is incremented together with
the frame send, so the counter always equals the number of publish frame
groups handed to the transport since enabling — a confirm can never
reference a sequence number of a publish not yet sent. -/
theorem confirm_publish_sequence (evs1 evs2 : List Event)
    (h1 : (runTrace initChannel evs1).2.confirmMode = false)
    (h2 : (runTrace initChannel evs1).2.lifecycle = .Open) :
    (∀ i (hi : i < (publishSeqs (runTrace (afterEnable evs1) evs2).1).length),
        (publishSeqs (runTrace (afterEnable evs1) evs2).1).get ⟨i, hi⟩ = i + 1)
    ∧ publishFrameCount (runTrace (afterEnable evs1) evs2).2.frames
      = publishFrameCount (afterEnable evs1).frames
        + (runTrace (afterEnable evs1) evs2).2.confirmSeq := by
  have hs1 : (runTrace initChannel evs1).2.confirmSeq = 0 :=
    trace_confirm_off evs1 initChannel (fun _ => rfl) h1
  have hstep : afterEnable evs1
      = { (runTrace initChannel evs1).2 with confirmMode := true } := by
    simp [afterEnable, step, h2]
  have hmode : (afterEnable evs1).confirmMode = true := by rw [hstep]
  have hseq : (afterEnable evs1).confirmSeq = 0 := by rw [hstep]; exact hs1
  obtain ⟨t1, t2, t3⟩ := trace_confirm evs2 (afterEnable evs1) hmode
  rw [hseq] at t1 t2 t3
  constructor
  · intro i hi
    simp only [List.get_eq_getElem, t1, List.getElem_range']
    omega
  · omega

/-- Witness for C1: on a fresh channel, enabling confirms and then issuing
two publishes around an interleaved queue declaration and its broker reply
assigns them sequence numbers 1 and 2 and sends exactly two publish frame
groups. -/
theorem confirm_publish_sequence_witness :
    (runTrace initChannel []).2.confirmMode = false
    ∧ (runTrace initChannel []).2.lifecycle = .Open
    ∧ ((∀ i (hi : i < (publishSeqs (runTrace (afterEnable [])
          [Event.call (Op.Publish "e" "k" 0), Event.call (Op.DeclareQueue "q" 0),
           Event.brokerReply, Event.call (Op.Publish "e" "k" kMandatory)]).1).length),
        (publishSeqs (runTrace (afterEnable [])
          [Event.call (Op.Publish "e" "k" 0), Event.call (Op.DeclareQueue "q" 0),
           Event.brokerReply, Event.call (Op.Publish "e" "k" kMandatory)]).1).get ⟨i, hi⟩
          = i + 1)
      ∧ publishFrameCount (runTrace (afterEnable [])
          [Event.call (Op.Publish "e" "k" 0), Event.call (Op.DeclareQueue "q" 0),
           Event.brokerReply, Event.call (Op.Publish "e" "k" kMandatory)]).2.frames
        = publishFrameCount (afterEnable []).frames
          + (runTrace (afterEnable [])
              [Event.call (Op.Publish "e" "k" 0), Event.call (Op.DeclareQueue "q" 0),
               Event.brokerReply, Event.call (Op.Publish "e" "k" kMandatory)]).2.confirmSeq) :=
  ⟨rfl, rfl,
   confirm_publish_sequence []
     [Event.call (Op.Publish "e" "k" 0), Event.call (Op.DeclareQueue "q" 0),
      Event.brokerReply, Event.call (Op.Publish "e" "k" kMandatory)] rfl rfl⟩

/-- C9: table lookup by key returns the first entry whose key matches, even
when the table contains duplicate keys: any returned entry matches the key,
splits the table so that every earlier entry's key differs, and is non-empty
under the table well-formedness invariant; and lookup finds an entry
whenever one with the key exists. -/
theorem table_lookup_first_match (t : List TableEntry) (key : String)
    (hwf : TableWF t) :
    (∀ e, amqp_table_get_entry_by_key t key = some e →
        e.key = key ∧ e.key ≠ ""
        ∧ ∃ pre post, t = pre ++ e :: post ∧ ∀ x ∈ pre, x.key ≠ key)
    ∧ ((∃ x ∈ t, x.key = key) →
        (amqp_table_get_entry_by_key t key).isSome = true) := by
  constructor
  · intro e he
    have hkey : e.key = key := by
      have hp := List.find?_some he
      simpa using hp
    have hmem := List.mem_of_find?_eq_some he
    refine ⟨hkey, hwf e hmem, ?_⟩
    obtain ⟨-, pre, post, hsplit, hall⟩ :=
      List.find?_eq_some.mp (he : t.find? (fun x => x.key == key) = some e)
    refine ⟨pre, post, hsplit, fun x hx => ?_⟩
    simpa using hall x hx
  · intro ⟨x, hx, hk⟩
    simp only [amqp_table_get_entry_by_key, List.find?_isSome]
    exact ⟨x, hx, by simp [hk]⟩

/-- A concrete table with a duplicated key, used to witness the lookup
claim. -/
def dupTable : List TableEntry :=
  [⟨"a", FieldValue.int 1⟩, ⟨"b", FieldValue.null⟩, ⟨"a", FieldValue.int 2⟩]

/-- Witness for C9: looking up "a" in a well-formed table holding two
entries keyed "a" returns the first of them. -/
theorem table_lookup_first_match_witness :
    TableWF dupTable
    ∧ ((∀ e, amqp_table_get_entry_by_key dupTable "a" = some e →
        e.key = "a" ∧ e.key ≠ ""
        ∧ ∃ pre post, dupTable = pre ++ e :: post ∧ ∀ x ∈ pre, x.key ≠ "a")
      ∧ ((∃ x ∈ dupTable, x.key = "a") →
          (amqp_table_get_entry_by_key dupTable "a").isSome = true)) :=
  ⟨by intro e he; fin_cases he <;> simp,
   table_lookup_first_match dupTable "a" (by intro e he; fin_cases he <;> simp)⟩

/-- C10: the Envelope accessors are pure observers — any sequence of
accessor calls leaves the envelope exactly as it was, each single accessor
returns the envelope unchanged, and an accessor invoked after any sequence
of prior accessor calls returns the same value as on the original
envelope. -/
theorem envelope_accessors_pure (e : Envelope) (calls : List Accessor) (a : Accessor) :
    applyAccessors e calls = e
    ∧ (runAccessor e a).2 = e
    ∧ (runAccessor (applyAccessors e calls) a).1 = (runAccessor e a).1 := by
  have hacc : ∀ (e' : Envelope) (a' : Accessor), (runAccessor e' a').2 = e' := by
    intro e' a'
    cases a' <;> rfl
  have happ : ∀ (cs : List Accessor) (e' : Envelope), applyAccessors e' cs = e' := by
    intro cs
    induction cs with
    | nil => intro e'; rfl
    | cons c cs ih =>
      intro e'
      rw [applyAccessors, hacc]
      exact ih e'
  exact ⟨happ calls e, hacc e a, by rw [happ calls e]⟩

end Rmq2

